import Mathlib

/-!
Verification development for the SeRVe client SDK.

The Python sources embedded here are `src/serve_sdk/client.py` (the
`ServeClient` facade), `src/serve_sdk/api_client.py` (the transport layer,
modelled at its call boundary), and `src/src/main.py` (the edge background
sync worker).  The `Session` and `CryptoUtils` classes are imported by
`client.py` but their files are not part of the source tree, so they are
modelled from the specification (spec.md sections 4.1 and 4.2); every such
definition is marked `Modelled from the spec:` in its doc comment.

Cryptography is modelled symbolically: a ciphertext remembers the key it
was produced under, and decryption succeeds exactly when the same key is
presented, which captures the AEAD "wrong key fails the tag check"
semantics the spec assigns to the primitives.  Fresh key generation
(CSPRNG) is resolved by passing the drawn key as an explicit input.
Transport responses are resolved by environment records, one field per
server interaction a code path can perform.
-/

namespace SeRVe

/-- Modelled from the spec: symmetric key (team KEK or document DEK),
`CryptoUtils.generate_aes_key` output; `crypto_utils.py` is not in the
source tree.  Keys are distinguished by an abstract identifier. -/
structure SymKey where
  id : Nat
deriving DecidableEq, Repr

/-- Modelled from the spec: asymmetric private identity key. -/
structure PrivKey where
  id : Nat
deriving DecidableEq, Repr

/-- Modelled from the spec: asymmetric public identity key; it matches the
private key with the same identifier. -/
structure PubKey where
  id : Nat
deriving DecidableEq, Repr

/-- Modelled from the spec: a ciphertext, remembering symbolically which key
produced it and what it protects. -/
inductive Blob where
  | data (key : SymKey) (plaintext : String)
  | wrapSym (kek : SymKey) (inner : SymKey)
  | wrapPub (pub : PubKey) (inner : SymKey)
deriving DecidableEq, Repr

/-- Modelled from the spec: terminal cryptographic failures of section 4.1. -/
inductive CryptoErr where
  | authenticationFailure
  | keyMismatch
  | wrongPassphrase
deriving DecidableEq, Repr

/-- Rendering of a cryptographic failure, standing for Python `str(e)`. -/
def CryptoErr.message : CryptoErr → String
  | .authenticationFailure => "AuthenticationFailure"
  | .keyMismatch => "KeyMismatch"
  | .wrongPassphrase => "WrongPassphrase"

/-- Modelled from the spec: `CryptoUtils.encrypt_data` (AEAD bulk encryption). -/
def encrypt_data (plaintext : String) (key : SymKey) : Blob :=
  .data key plaintext

/-- Modelled from the spec: `CryptoUtils.decrypt_data`; fails with an
authentication failure on a wrong key or a non-data blob. -/
def decrypt_data (b : Blob) (key : SymKey) : Except CryptoErr String :=
  match b with
  | .data k pt => if k = key then .ok pt else .error .authenticationFailure
  | _ => .error .authenticationFailure

/-- Modelled from the spec: `CryptoUtils.wrap_key_with_aes` (DEK under KEK). -/
def wrap_key_with_aes (inner : SymKey) (kek : SymKey) : Blob :=
  .wrapSym kek inner

/-- Modelled from the spec: `CryptoUtils.unwrap_key_with_aes`; fails with
`KeyMismatch` when the outer key differs. -/
def unwrap_key_with_aes (b : Blob) (kek : SymKey) : Except CryptoErr SymKey :=
  match b with
  | .wrapSym k inner => if k = kek then .ok inner else .error .keyMismatch
  | _ => .error .keyMismatch

/-- Modelled from the spec: `CryptoUtils.wrap_aes_key` (symmetric key under a
member's public key). -/
def wrap_aes_key (inner : SymKey) (pub : PubKey) : Blob :=
  .wrapPub pub inner

/-- Modelled from the spec: `CryptoUtils.unwrap_aes_key`; succeeds exactly when
the private key matches the public key the blob was wrapped under. -/
def unwrap_aes_key (b : Blob) (priv : PrivKey) : Except CryptoErr SymKey :=
  match b with
  | .wrapPub pub inner => if pub.id = priv.id then .ok inner else .error .keyMismatch
  | _ => .error .keyMismatch

/-- Modelled from the spec: a password-protected private key
(`CryptoUtils.encrypt_private_key` output): it remembers the protecting
password and the protected key. -/
structure EncPrivKey where
  password : String
  key : PrivKey
deriving DecidableEq, Repr

/-- Modelled from the spec: `CryptoUtils.recover_private_key`; fails with
`WrongPassphrase` when the supplied password differs from the protecting one. -/
def recover_private_key (e : EncPrivKey) (password : String) : Except CryptoErr PrivKey :=
  if e.password = password then .ok e.key else .error .wrongPassphrase

/-- The public half of an identity key pair
(`private_key.public_keyset_handle()` in `client.py`). -/
def PrivKey.public_keyset_handle (p : PrivKey) : PubKey :=
  ⟨p.id⟩

/-- Modelled from the spec: the `Session` object of section 4.2
(`serve_sdk/session.py` is not in the source tree).  It holds at most one
identity plus the team-key cache. -/
structure Session where
  accessToken : Option String
  userId : Option String
  email : Option String
  privateKey : Option PrivKey
  publicKey : Option PubKey
  teamKeys : List (String × SymKey)
deriving DecidableEq, Repr

/-- The fresh, unauthenticated session. -/
def Session.empty : Session :=
  ⟨none, none, none, none, none, []⟩

/-- Modelled from the spec: a session is authenticated when an identity is set. -/
def Session.is_authenticated (s : Session) : Bool :=
  s.accessToken.isSome

/-- Modelled from the spec: `clear` zeroes and discards every field
(logout, failed-login cleanup). -/
def Session.clear (_ : Session) : Session :=
  Session.empty

/-- Modelled from the spec: `setIdentity` part one, storing the credentials
returned by the server at login. -/
def Session.set_user_credentials (s : Session) (tok uid em : String) : Session :=
  { s with accessToken := some tok, userId := some uid, email := some em }

/-- Modelled from the spec: `setIdentity` part two, storing the recovered key
pair. -/
def Session.set_key_pair (s : Session) (priv : PrivKey) (pub : PubKey) : Session :=
  { s with privateKey := some priv, publicKey := some pub }

/-- Modelled from the spec: `KeyCache.get`. -/
def Session.get_cached_team_key (s : Session) (repoId : String) : Option SymKey :=
  (s.teamKeys.find? (fun p => p.1 = repoId)).map (·.2)

/-- Modelled from the spec: `KeyCache.put`; the newest entry for a team
shadows older ones. -/
def Session.cache_team_key (s : Session) (repoId : String) (k : SymKey) : Session :=
  { s with teamKeys := (repoId, k) :: s.teamKeys }

/-- A raised Python exception, as classified by the `except` clauses of
`client.py`. -/
inductive PyErr where
  | runtimeError (msg : String)
  | valueError (msg : String)
  | typeError (msg : String)
  | attributeError (msg : String)
deriving DecidableEq, Repr

/-- Python `str(e)` on a raised exception. -/
def PyErr.message : PyErr → String
  | .runtimeError m => m
  | .valueError m => m
  | .typeError m => m
  | .attributeError m => m

/-- The message of the `RuntimeError` raised by
`ServeClient._ensure_authenticated` (`client.py` line 45). -/
def login_required_msg : String := "로그인이 필요합니다."

/-- The 60-character separator line used in the team-key failure message
(`client.py` line 83). -/
def eq_sep : String := String.mk (List.replicate 60 '=')

/-- The phrase of the team-key failure message telling the caller to request
an invite (`client.py` lines 87 and 88). -/
def invite_hint : String := "초대를 요청하세요"

/-- Front part of the `RuntimeError` message of `_ensure_team_key` on a failed
server lookup (`client.py` lines 82 to 84). -/
def team_key_failure_front : String :=
  "팀 키 조회 실패\n" ++ eq_sep ++ "\n"

/-- Part of the failure message between the server error text and the invite
hint (`client.py` lines 84 to 87). -/
def team_key_failure_mid : String :=
  "\n" ++ eq_sep ++ "\n💡 해결 방법:\n   1. 팀 멤버가 아닌 경우: 팀 ADMIN에게 "

/-- Tail of the failure message after the first invite hint
(`client.py` lines 87 to 89). -/
def team_key_failure_tail : String :=
  "\n   2. 팀 키 미설정: 팀 ADMIN에게 재" ++ invite_hint ++
    "\n   3. 위 메시지에서 ADMIN 이메일을 확인하세요"

/-- The full `RuntimeError` message of `_ensure_team_key` on a failed server
lookup, around the server-reported error text (`client.py` lines 81 to 90). -/
def team_key_failure_message (errorMsg : String) : String :=
  team_key_failure_front ++ errorMsg ++ team_key_failure_mid ++ invite_hint ++
    team_key_failure_tail

/-- Transport responses consumed by `_ensure_team_key`:
`ApiClient.get_team_key` either returns the wrapped team-key blob or an error
message (HTTP failure text). -/
structure TeamKeyEnv where
  get_team_key : Except String Blob
deriving Repr

/-- `ServeClient._ensure_team_key` (`client.py` lines 47 to 101).  Returns the
team key, the updated session, and whether the transport was consulted; a
raised `RuntimeError` is an `Except.error`. -/
def ensure_team_key (s : Session) (env : TeamKeyEnv) (repoId : String) :
    Except PyErr (SymKey × Session × Bool) :=
  match s.get_cached_team_key repoId with
  | some k => .ok (k, s, false)
  | none =>
    if s.is_authenticated then
      match env.get_team_key with
      | .error msg => .error (.runtimeError (team_key_failure_message msg))
      | .ok blob =>
        match s.privateKey with
        | none => .error (.runtimeError "팀 키 복호화 실패: no private key in session")
        | some priv =>
          match unwrap_aes_key blob priv with
          | .error e => .error (.runtimeError ("팀 키 복호화 실패: " ++ e.message))
          | .ok teamKey => .ok (teamKey, s.cache_team_key repoId teamKey, true)
    else .error (.runtimeError login_required_msg)

/-- The data the server returns on a successful login
(`ApiClient.login`, `api_client.py` lines 90 to 105). -/
structure LoginData where
  accessToken : String
  userId : String
  email : String
  encryptedPrivateKey : EncPrivKey
deriving DecidableEq, Repr

/-- Transport response consumed by `ServeClient.login`. -/
structure LoginEnv where
  login : Except String LoginData
deriving Repr

/-- `ServeClient.login` (`client.py` lines 135 to 181).  The whole body is
wrapped in `try`, so the operation always returns an outcome pair together
with the updated session. -/
def login (s : Session) (env : LoginEnv) (password : String) :
    (Bool × String) × Session :=
  match env.login with
  | .error msg => ((false, msg), s)
  | .ok d =>
    let s1 := s.set_user_credentials d.accessToken d.userId d.email
    match recover_private_key d.encryptedPrivateKey password with
    | .error e => ((false, "개인키 복구 실패: " ++ e.message), s1.clear)
    | .ok priv =>
      let s2 := s1.set_key_pair priv priv.public_keyset_handle
      ((true, "로그인 성공"), s2)

/-- A document-metadata row as returned by `ApiClient.get_documents`
(`api_client.py` lines 350 to 367). -/
structure DocMeta where
  docId : String
  fileName : String
  encryptedDEK : Option Blob
deriving DecidableEq, Repr

/-- Transport response consumed by `ServeClient.get_documents` and by
`_reencrypt_all_documents`. -/
structure DocListEnv where
  get_documents : Except String (List DocMeta)
deriving Repr

/-- `ServeClient.get_documents` (`client.py` lines 485 to 497).  The
authentication check sits outside any `try`, so an unauthenticated call
raises; otherwise the outcome pair is returned. -/
def get_documents (s : Session) (env : DocListEnv) :
    Except PyErr (Option (List DocMeta) × String) :=
  if s.is_authenticated then
    match env.get_documents with
    | .ok docs => .ok (some docs, "조회 성공")
    | .error m => .ok (none, m)
  else .error (.runtimeError login_required_msg)

/-- A plaintext chunk record handed to `upload_chunks_to_document`
(entries of `chunks_data`). -/
structure PlainChunk where
  chunkIndex : Int
  data : String
deriving DecidableEq, Repr

/-- An encrypted chunk record as built by `upload_chunks_to_document`
(entries of `encrypted_chunks`). -/
structure EncChunk where
  chunkIndex : Int
  encryptedBlob : Blob
deriving DecidableEq, Repr

/-- A Python value passed as a positional argument to a transport method. -/
inductive PyVal where
  | str (s : String)
  | chunks (cs : List EncChunk)
  | blob (b : Blob)
deriving DecidableEq, Repr

/-- `ApiClient.upload_chunks` (`api_client.py` lines 392 to 414), embedded at
the Python call boundary: the method's parameter list is
`(self, doc_id, chunks, access_token)`, so a call supplying any other number
of positional arguments raises `TypeError` before any request is sent.  The
result carries the outcome pair and whether the HTTP request was sent. -/
def ApiClient.upload_chunks_call (post_ok : Bool) (args : List PyVal) :
    Except PyErr ((Bool × String) × Bool) :=
  if args.length = 3 then
    .ok ((if post_ok then (true, "청크 업로드 성공") else (false, "청크 업로드 실패")), true)
  else
    .error (.typeError ("upload_chunks() takes 4 positional arguments but " ++
      toString (args.length + 1) ++ " were given"))

/-- Environment consumed by `upload_chunks_to_document`: team-key lookup
response, the CSPRNG draw for the fresh DEK, and the transport's answer to
the chunk POST. -/
structure UploadEnv where
  team : TeamKeyEnv
  dek : SymKey
  post_ok : Bool
deriving Repr

/-- `ServeClient.upload_chunks_to_document` (`client.py` lines 515 to 569).
The authentication check (line 533) sits outside the `try`; everything after
it is caught and converted to a `(False, message)` outcome.  The final `Bool`
of the result records whether the chunk POST reached the transport. -/
def upload_chunks_to_document (s : Session) (env : UploadEnv)
    (fileName repoId : String) (chunksData : List PlainChunk) :
    Except PyErr ((Bool × String) × Session × Bool) :=
  if s.is_authenticated then
    match ensure_team_key s env.team repoId with
    | .error e => .ok ((false, "청크 업로드 오류: " ++ e.message), s, false)
    | .ok (teamKey, s1, _) =>
      let encChunks := chunksData.map
        (fun c => EncChunk.mk c.chunkIndex (encrypt_data c.data env.dek))
      let encDek := wrap_key_with_aes env.dek teamKey
      match ApiClient.upload_chunks_call env.post_ok
          [.str repoId, .str fileName, .chunks encChunks,
            .str (s1.accessToken.getD ""), .blob encDek] with
      | .error e => .ok ((false, "청크 업로드 오류: " ++ e.message), s1, false)
      | .ok (res, sent) => .ok (res, s1, sent)
  else .error (.runtimeError login_required_msg)

/-- A chunk delta row as returned by the sync endpoints
(`api_client.py` lines 459 to 507): tombstones carry no payload. -/
structure SyncChunkRow where
  documentId : String
  chunkIndex : Int
  encryptedBlob : Option Blob
  version : Int
  isDeleted : Bool
deriving DecidableEq, Repr

/-- A decrypted chunk entry as assembled by the sync methods of `client.py`
(`result_chunk` dictionaries, lines 721 to 742 and 789 to 808). -/
structure ResultChunk where
  chunkIndex : Int
  version : Int
  isDeleted : Bool
  data : Option String
deriving DecidableEq, Repr

/-- The per-row work of the sync loops in `client.py` (lines 716 to 742 and
783 to 808): tombstones are passed through without decryption; live rows are
decrypted with the key the caller supplies — which in the source is the TEAM
key, not the document DEK. -/
def decrypt_sync_row (key : SymKey) (c : SyncChunkRow) : Except CryptoErr ResultChunk :=
  if c.isDeleted then
    .ok ⟨c.chunkIndex, c.version, true, none⟩
  else
    match c.encryptedBlob with
    | none => .error .authenticationFailure
    | some b =>
      match decrypt_data b key with
      | .error e => .error e
      | .ok pt => .ok ⟨c.chunkIndex, c.version, false, some pt⟩

/-- The sync loops of `client.py` run row by row and a raised decryption
error aborts the whole batch (caught by the outer `try`). -/
def decrypt_sync_rows (key : SymKey) :
    List SyncChunkRow → Except CryptoErr (List (String × ResultChunk))
  | [] => .ok []
  | r :: rs =>
    match decrypt_sync_row key r with
    | .error e => .error e
    | .ok rc =>
      match decrypt_sync_rows key rs with
      | .error e => .error e
      | .ok rest => .ok ((r.documentId, rc) :: rest)

/-- Insertion into the per-document grouping dictionary built by
`sync_team_chunks` (`client.py` lines 810 to 813), keeping Python dict
insertion order. -/
def group_insert :
    List (String × List ResultChunk) → String → ResultChunk →
      List (String × List ResultChunk)
  | [], d, rc => [(d, [rc])]
  | (k, l) :: rest, d, rc =>
    if k = d then (k, l ++ [rc]) :: rest
    else (k, l) :: group_insert rest d rc

/-- Grouping of decrypted rows by document identifier
(`documents_chunks` in `client.py`). -/
def group_rows (pairs : List (String × ResultChunk)) :
    List (String × List ResultChunk) :=
  pairs.foldl (fun acc p => group_insert acc p.1 p.2) []

/-- Environment consumed by the sync methods: the delta response and the
team-key lookup response. -/
structure SyncEnv where
  team : TeamKeyEnv
  sync : Except String (List SyncChunkRow)
deriving Repr

/-- `ServeClient.sync_document_chunks` (`client.py` lines 684 to 747).  Live
rows are decrypted directly with the team key (line 737). -/
def sync_document_chunks (s : Session) (env : SyncEnv) (repoId : String) :
    Except PyErr ((Option (List ResultChunk) × String) × Session) :=
  if s.is_authenticated then
    match env.sync with
    | .error m => .ok ((none, m), s)
    | .ok [] => .ok ((some [], "변경사항 없음"), s)
    | .ok rows =>
      match ensure_team_key s env.team repoId with
      | .error e => .ok ((none, "청크 동기화 오류: " ++ e.message), s)
      | .ok (teamKey, s1, _) =>
        match decrypt_sync_rows teamKey rows with
        | .error e => .ok ((none, "청크 동기화 오류: " ++ e.message), s1)
        | .ok pairs =>
          let results := pairs.map (·.2)
          .ok ((some results, toString results.length ++ "개 청크 동기화 완료"), s1)
  else .error (.runtimeError login_required_msg)

/-- `ServeClient.sync_team_chunks` (`client.py` lines 749 to 819).  Live rows
are decrypted directly with the team key (line 805) and grouped per document. -/
def sync_team_chunks (s : Session) (env : SyncEnv) (repoId : String) :
    Except PyErr ((Option (List (String × List ResultChunk)) × String) × Session) :=
  if s.is_authenticated then
    match env.sync with
    | .error m => .ok ((none, m), s)
    | .ok [] => .ok ((some [], "변경사항 없음"), s)
    | .ok rows =>
      match ensure_team_key s env.team repoId with
      | .error e => .ok ((none, "팀 청크 동기화 오류: " ++ e.message), s)
      | .ok (teamKey, s1, _) =>
        match decrypt_sync_rows teamKey rows with
        | .error e => .ok ((none, "팀 청크 동기화 오류: " ++ e.message), s1)
        | .ok pairs =>
          let grouped := group_rows pairs
          let total := (grouped.map (·.2.length)).sum
          .ok ((some grouped,
            toString grouped.length ++ "개 문서, 총 " ++ toString total ++
              "개 청크 동기화 완료"), s1)
  else .error (.runtimeError login_required_msg)

/-- Modelled from the spec: section 4.5 — "For live entries, the document's
DEK is obtained by unwrapping `encryptedDEK` with the current team key, then
`decrypt(encryptedBlob, DEK)`."  This is the decryption path the claims
prescribe for sync deltas, written from the spec's words for comparison with
the source's sync methods. -/
def spec_delta_plaintext (teamKey : SymKey) (encryptedDEK : Blob)
    (c : SyncChunkRow) : Except CryptoErr String :=
  match unwrap_key_with_aes encryptedDEK teamKey with
  | .error e => .error e
  | .ok dek =>
    match c.encryptedBlob with
    | none => .error .authenticationFailure
    | some b => decrypt_data b dek

/-- The per-document work of `_reencrypt_all_documents` (`client.py` lines
850 to 880): a document with no `encryptedDEK`, or whose DEK fails to unwrap
under the old team key, is skipped (`continue`); otherwise its DEK is
rewrapped under the new team key. -/
def reencrypt_entry (oldKey newKey : SymKey) (doc : DocMeta) :
    Option (String × Blob) :=
  match doc.encryptedDEK with
  | none => none
  | some blob =>
    match unwrap_key_with_aes blob oldKey with
    | .error _ => none
    | .ok dek => some (doc.docId, wrap_key_with_aes dek newKey)

/-- The text of the `AttributeError` raised at `client.py` line 884: the
source `ApiClient` (`api_client.py`) defines no `reencrypt_document_keys`
method, so the attribute lookup fails before any request is built. -/
def reencrypt_attr_err_msg : String :=
  "ApiClient object has no attribute reencrypt_document_keys"

/-- `ServeClient._reencrypt_all_documents` (`client.py` lines 823 to 890)
composed with the source `ApiClient`.  The per-document loop computes the
rewrapped-DEK list; when it is empty the guard at line 883 skips the
submission and the function returns normally, but a non-empty list reaches
line 884, where `self.api.reencrypt_document_keys` raises `AttributeError`
because `api_client.py` defines no such method — so a non-empty batch always
raises and nothing is ever submitted to the server.  Also raises on a
missing old key or a failed document listing. -/
def reencrypt_all_documents (s : Session) (env : DocListEnv)
    (repoId : String) (newKey : SymKey) :
    Except PyErr (List (String × Blob)) :=
  match s.get_cached_team_key repoId with
  | none => .error (.valueError "이전 팀 키를 찾을 수 없습니다")
  | some oldKey =>
    match env.get_documents with
    | .error m => .error (.runtimeError ("문서 목록 조회 실패: " ++ m))
    | .ok docs =>
      let reencrypted := docs.filterMap (reencrypt_entry oldKey newKey)
      if reencrypted.isEmpty then .ok []
      else .error (.attributeError reencrypt_attr_err_msg)

/-- A remaining-member record of the kick response body
(spec section 6 `kickMember`; consumed by `client.py` lines 371 to 373). -/
structure Member where
  userId : String
  publicKey : PubKey
deriving DecidableEq, Repr

/-- The JSON body the server returns for a kick (spec section 6:
`kickMember(teamId, targetUserId) → {keyRotationRequired: bool,
remainingMembers: [...]}` plus an optional message), as parsed by
`ApiClient._handle_response`. -/
structure KickWireBody where
  keyRotationRequired : Bool
  remainingMembers : List Member
  message : Option String
deriving DecidableEq, Repr

/-- A value `client.py` line 357 can receive as the kick response: its
`isinstance(response, dict)` check distinguishes a structured dict from any
other value, so both shapes are represented. -/
inductive KickResponseVal where
  | str (s : String)
  | dict (keyRotationRequired : Bool) (remainingMembers : List Member)
      (message : Option String)
deriving DecidableEq, Repr

/-- Rendering of a response value inside the failure f-string at `client.py`
line 354. -/
def KickResponseVal.text : KickResponseVal → String
  | .str t => t
  | .dict _ _ _ => "dict"

/-- `ApiClient.kick_member` (`api_client.py` lines 266 to 278): the parsed
response body is discarded (`success, _ = self._handle_response(resp)`) and a
fixed string is returned — the rotation data never reaches the caller. -/
def ApiClient.kick_member_result (ok : Bool) (_body : KickWireBody) :
    Bool × KickResponseVal :=
  (ok, .str (if ok then "멤버 강퇴 성공" else "멤버 강퇴 실패"))

/-- Observable side effects of a `kick_member` run, used to state which
control-plane operations were performed. -/
inductive KickEvent where
  | generatedKey (k : SymKey)
  | rotateCall (repoId : String) (memberKeys : List (String × Blob))
  | reencryptCall (repoId : String) (docs : List (String × Blob))
deriving DecidableEq, Repr

/-- The text of the `AttributeError` raised at `client.py` line 387: the
source `ApiClient` defines no `rotate_team_keys` method. -/
def rotate_attr_err_msg : String :=
  "ApiClient object has no attribute rotate_team_keys"

/-- `ServeClient.kick_member` from line 345 on (`client.py` lines 345 to
415), as a function of the pair `api.kick_member` returned and the CSPRNG
draw for line 367, against the source `ApiClient`: should the rotation block
(lines 365 to 409) ever be entered, the new key is generated and wrapped for
every remaining member, and then the attribute lookup
`self.api.rotate_team_keys` at line 387 raises `AttributeError` (no such
method on `ApiClient`), which the `except` at line 408 converts into a
successful-kick outcome carrying the auto-rotation-failure message — the
submission at line 387, the re-encryption at line 398 and the cache update
at line 404 are never reached, so the session always comes back unchanged. -/
def kick_member_on_response (s : Session) (ok : Bool)
    (response : KickResponseVal) (newKey : SymKey) (auto_rotate_keys : Bool) :
    (Bool × String) × Session × List KickEvent :=
  if !ok then ((false, "멤버 강퇴 실패: " ++ response.text), s, [])
  else
    match response with
    | .str _ => ((true, "멤버 강퇴 성공 (키 로테이션 정보 없음)"), s, [])
    | .dict required remaining message =>
      if auto_rotate_keys && required && !remaining.isEmpty then
        ((true, "멤버 강퇴 성공, 하지만 자동 키 로테이션 실패: " ++ rotate_attr_err_msg),
          s, [.generatedKey newKey])
      else if required && !auto_rotate_keys then
        ((true, "멤버 강퇴 성공 (수동 키 로테이션 필요)"), s, [])
      else
        ((true, message.getD "멤버 강퇴 성공"), s, [])

/-- `ServeClient.kick_member` (`client.py` lines 330 to 415) composed with
the source `ApiClient.kick_member`: the authentication check (line 343) sits
outside any `try` and raises on an unauthenticated session; the response the
adapter hands back is always a plain string, so the dict branch at line 357
is never entered and no rotation is ever attempted. -/
def kick_member (s : Session) (ok : Bool) (body : KickWireBody)
    (newKey : SymKey) (repoId targetUserId : String)
    (auto_rotate_keys : Bool) :
    Except PyErr ((Bool × String) × Session × List KickEvent) :=
  if s.is_authenticated then
    let r := ApiClient.kick_member_result ok body
    .ok (kick_member_on_response s r.1 r.2 newKey auto_rotate_keys)
  else .error (.runtimeError login_required_msg)

/-- Environment of one `background_sync_worker` iteration (`src/src/main.py`
lines 104 to 195): applying a live chunk to the local vector store may raise
(ChromaDB failures), which the worker's `except` clause absorbs. -/
structure WorkerEnv where
  apply_chunk : String → ResultChunk → Except PyErr Unit

/-- The inner chunk loop of the worker (`main.py` lines 149 to 184): a
tombstone is logged and skipped, a live chunk is applied to the vector
store, and `max_version` is raised to the chunk's version afterwards.  A
raised application error aborts the batch. -/
def process_doc_chunks (env : WorkerEnv) (docId : String) :
    List ResultChunk → Int → Except PyErr Int
  | [], maxV => .ok maxV
  | c :: cs, maxV =>
    if c.isDeleted then
      process_doc_chunks env docId cs (if c.version > maxV then c.version else maxV)
    else
      match env.apply_chunk docId c with
      | .error e => .error e
      | .ok _ =>
        process_doc_chunks env docId cs (if c.version > maxV then c.version else maxV)

/-- The outer document loop of the worker (`main.py` lines 148 to 184). -/
def process_batch (env : WorkerEnv) :
    List (String × List ResultChunk) → Int → Except PyErr Int
  | [], maxV => .ok maxV
  | (docId, chunks) :: rest, maxV =>
    match process_doc_chunks env docId chunks maxV with
    | .error e => .error e
    | .ok maxV2 => process_batch env rest maxV2

/-- One worker iteration after a delta batch arrived (`main.py` lines 144 to
195): the returned pair is the persisted watermark after the iteration and
whether `save_sync_version` was called.  An exception anywhere in the batch
is caught at line 192, leaving the watermark untouched; otherwise the
watermark is saved only when the batch raised it (lines 186 to 190). -/
def worker_iteration (env : WorkerEnv)
    (batch : List (String × List ResultChunk)) (lastVersion : Int) :
    Int × Bool :=
  match process_batch env batch lastVersion with
  | .error _ => (lastVersion, false)
  | .ok maxV =>
    if maxV > lastVersion then (maxV, true) else (lastVersion, false)

/-- The maximum version in a chunk list, folded the way the worker tracks
`max_version`. -/
def chunk_list_max (v : Int) (cs : List ResultChunk) : Int :=
  cs.foldl (fun a c => if c.version > a then c.version else a) v

/-- The maximum version across the whole delta batch, starting from the
current watermark. -/
def batch_max (v : Int) (batch : List (String × List ResultChunk)) : Int :=
  batch.foldl (fun a p => chunk_list_max a p.2) v

/-! Concrete fixtures used by witnesses and counterexamples. -/

/-- A concrete team key. -/
def tkA : SymKey := ⟨0⟩

/-- A concrete document DEK, distinct from the team key. -/
def dekA : SymKey := ⟨1⟩

/-- A concrete identity private key. -/
def privA : PrivKey := ⟨7⟩

/-- An authenticated session with an empty key cache. -/
def authSession : Session :=
  ⟨some "tok", some "u1", some "a@test.serve", some privA,
    some privA.public_keyset_handle, []⟩

/-- An authenticated session holding the team key for `team1` in its cache. -/
def cachedSession : Session :=
  authSession.cache_team_key "team1" tkA

/-- A team-key environment whose server lookup fails with an HTTP 403 text. -/
def deniedTeamKeyEnv : TeamKeyEnv := ⟨.error "HTTP 403: Forbidden"⟩

/-! Claim theorems. -/

/-- C7: `_ensure_team_key` returns the cached team key with no transport call
on a cache hit; on a miss it requires an authenticated identity, fails with
an error whose message embeds the request-an-invite hint when the server
refuses the wrapped-key lookup, and otherwise unwraps the blob with the
identity's private key, caches the result, and returns it. -/
theorem C7_ensure_team_key_lazy (s : Session) (env : TeamKeyEnv) (repoId : String) :
    (∀ k, s.get_cached_team_key repoId = some k →
      ensure_team_key s env repoId = .ok (k, s, false)) ∧
    (s.get_cached_team_key repoId = none → s.is_authenticated = false →
      ensure_team_key s env repoId = .error (.runtimeError login_required_msg)) ∧
    (∀ m, s.get_cached_team_key repoId = none → s.is_authenticated = true →
      env.get_team_key = .error m →
      ensure_team_key s env repoId =
        .error (.runtimeError (team_key_failure_front ++ m ++
          team_key_failure_mid ++ invite_hint ++ team_key_failure_tail))) ∧
    (∀ blob priv k, s.get_cached_team_key repoId = none → s.is_authenticated = true →
      s.privateKey = some priv → env.get_team_key = .ok blob →
      unwrap_aes_key blob priv = .ok k →
      ensure_team_key s env repoId = .ok (k, s.cache_team_key repoId k, true) ∧
      (s.cache_team_key repoId k).get_cached_team_key repoId = some k) := by
  refine ⟨?_, ?_, ?_, ?_⟩
  · intro k h
    simp [ensure_team_key, h]
  · intro h1 h2
    simp [ensure_team_key, h1, h2]
  · intro m h1 h2 h3
    simp [ensure_team_key, h1, h2, h3, team_key_failure_message]
  · intro blob priv k h1 h2 h3 h4 h5
    refine ⟨by simp [ensure_team_key, h1, h2, h3, h4, h5], ?_⟩
    simp [Session.cache_team_key, Session.get_cached_team_key, List.find?]

/-- Witness for C7 at concrete inputs: a cache hit returns the cached key
without consulting the transport, and a cache miss with a refused lookup
fails with the invite-hint message. -/
theorem C7_witness :
    ensure_team_key cachedSession deniedTeamKeyEnv "team1" =
      .ok (tkA, cachedSession, false) ∧
    ensure_team_key authSession deniedTeamKeyEnv "team1" =
      .error (.runtimeError (team_key_failure_front ++ "HTTP 403: Forbidden" ++
        team_key_failure_mid ++ invite_hint ++ team_key_failure_tail)) := by
  exact ⟨(C7_ensure_team_key_lazy cachedSession deniedTeamKeyEnv "team1").1 tkA (by decide),
    (C7_ensure_team_key_lazy authSession deniedTeamKeyEnv "team1").2.2.1
      "HTTP 403: Forbidden" (by decide) (by decide) rfl⟩

/-- C8: when the server accepts the login but recovery of the encrypted
private key with the supplied password fails, `login` returns a failure
outcome and the session afterwards is the fully cleared one: no access
token, user id, or key material remains and it is not authenticated. -/
theorem C8_login_failed_recovery_clears_session
    (s : Session) (env : LoginEnv) (password : String) (d : LoginData)
    (e : CryptoErr)
    (hlogin : env.login = .ok d)
    (hrec : recover_private_key d.encryptedPrivateKey password = .error e) :
    login s env password =
      ((false, "개인키 복구 실패: " ++ e.message), Session.empty) ∧
    Session.empty.is_authenticated = false ∧
    Session.empty.accessToken = none ∧
    Session.empty.userId = none ∧
    Session.empty.privateKey = none ∧
    Session.empty.publicKey = none ∧
    Session.empty.teamKeys = [] := by
  refine ⟨?_, rfl, rfl, rfl, rfl, rfl, rfl⟩
  simp [login, hlogin, hrec, Session.clear]

/-- Concrete login response protecting the private key under a different
password than the one the user supplies. -/
def mismatchedLoginEnv : LoginEnv :=
  ⟨.ok ⟨"tok", "u1", "a@test.serve", ⟨"right-pw", privA⟩⟩⟩

/-- Witness for C8 at a concrete input: wrong password at recovery time
clears the whole session. -/
theorem C8_witness :
    login Session.empty mismatchedLoginEnv "wrong-pw" =
      ((false, "개인키 복구 실패: " ++ CryptoErr.wrongPassphrase.message),
        Session.empty) := by
  exact (C8_login_failed_recovery_clears_session Session.empty mismatchedLoginEnv
    "wrong-pw" ⟨"tok", "u1", "a@test.serve", ⟨"right-pw", privA⟩⟩
    .wrongPassphrase rfl rfl).1

/-- On every input, `kick_member_on_response` hands the session back
unchanged: the branches that would alter the cache sit after the transport
submissions the source `ApiClient` cannot perform. -/
theorem kick_member_on_response_session (s : Session) (ok : Bool)
    (response : KickResponseVal) (newKey : SymKey) (auto : Bool) :
    (kick_member_on_response s ok response newKey auto).2.1 = s := by
  unfold kick_member_on_response
  cases ok
  · rfl
  · cases response with
    | str t => rfl
    | dict required remaining message =>
      by_cases h1 : (auto && required && !remaining.isEmpty) = true
      · simp [h1]
      · simp only [Bool.not_eq_true] at h1
        by_cases h2 : (required && !auto) = true <;> simp [h1, h2]

/-- C5 (failing-scenario evaluation): the scenario the claim quantifies
over — a successful membership removal followed by a failing
`rotateTeamKeys` submission — does not exist in the program.  Composed with
the source `ApiClient`, `kick_member` performs no rotation side effect at
all and returns one of two fixed outcomes; and the rotation block of
`client.py` (lines 365 to 409), were the rotation data ever handed through,
dies at the missing `rotate_team_keys` attribute before any submission,
reporting the kick as successful with the auto-rotation-failure message. -/
theorem C5_kick_rotation_never_submitted (s : Session) (ok : Bool)
    (body : KickWireBody) (newKey : SymKey) (repoId target : String)
    (auto : Bool) (remaining : List Member) (message : Option String)
    (hauth : s.is_authenticated = true)
    (hrem : remaining.isEmpty = false) :
    kick_member s ok body newKey repoId target auto =
      .ok (if ok then ((true, "멤버 강퇴 성공 (키 로테이션 정보 없음)"), s, [])
        else ((false, "멤버 강퇴 실패: 멤버 강퇴 실패"), s, [])) ∧
    kick_member_on_response s true (.dict true remaining message) newKey true =
      ((true, "멤버 강퇴 성공, 하지만 자동 키 로테이션 실패: " ++ rotate_attr_err_msg),
        s, [.generatedKey newKey]) := by
  constructor
  · cases ok <;>
      simp [kick_member, ApiClient.kick_member_result, kick_member_on_response,
        KickResponseVal.text, hauth]
  · simp [kick_member_on_response, hrem]

/-- The kick body of a server that requires rotation with one remaining
member. -/
def wireBodyRot : KickWireBody := ⟨true, [⟨"u2", ⟨9⟩⟩], none⟩

/-- Witness for C5 at concrete inputs: the composed call returns the fixed
no-rotation-data message, and the hypothetical dict branch dies at the
missing attribute with no submission. -/
theorem C5_witness :
    kick_member cachedSession true wireBodyRot ⟨5⟩ "team1" "u3" true =
      .ok ((true, "멤버 강퇴 성공 (키 로테이션 정보 없음)"), cachedSession, []) ∧
    kick_member_on_response cachedSession true
        (.dict true [⟨"u2", ⟨9⟩⟩] none) ⟨5⟩ true =
      ((true, "멤버 강퇴 성공, 하지만 자동 키 로테이션 실패: " ++ rotate_attr_err_msg),
        cachedSession, [.generatedKey ⟨5⟩]) := by
  have h := C5_kick_rotation_never_submitted cachedSession true wireBodyRot ⟨5⟩
    "team1" "u3" true [⟨"u2", ⟨9⟩⟩] none (by decide) (by decide)
  exact ⟨h.1, h.2⟩

/-- C10: when the server reports `keyRotationRequired = true` with an empty
`remainingMembers` list, `kick_member` generates no key and performs no
rotation or re-encryption submission (no side effect at all), the session is
unchanged, and the kick is still reported as successful.  With the source
`ApiClient` the rotation data is discarded before the guard at `client.py`
line 364 is even consulted, so this conclusion holds for this — and every —
successful kick. -/
theorem C10_kick_empty_remaining_no_rotation (s : Session)
    (message : Option String) (newKey : SymKey) (repoId target : String)
    (auto : Bool) (hauth : s.is_authenticated = true) :
    kick_member s true ⟨true, [], message⟩ newKey repoId target auto =
      .ok ((true, "멤버 강퇴 성공 (키 로테이션 정보 없음)"), s,
        ([] : List KickEvent)) := by
  simp [kick_member, ApiClient.kick_member_result, kick_member_on_response, hauth]

/-- Witness for C10 at a concrete input. -/
theorem C10_witness :
    kick_member cachedSession true ⟨true, [], some "멤버 강퇴 성공"⟩ ⟨5⟩
        "team1" "u3" true =
      .ok ((true, "멤버 강퇴 성공 (키 로테이션 정보 없음)"), cachedSession,
        ([] : List KickEvent)) := by
  exact C10_kick_empty_remaining_no_rotation cachedSession (some "멤버 강퇴 성공")
    ⟨5⟩ "team1" "u3" true (by decide)

/-- C9 (failing-scenario evaluation): the conditional cache update the claim
describes (`client.py` line 404) is unreachable, so `kick_member` never
replaces the cached team key: composed with the source `ApiClient` the
session comes back unchanged from every authenticated call, and the
dict-handling block leaves the session untouched on every input, because the
`rotateTeamKeys` and `reencrypt_document_keys` submissions it would
condition on cannot be made (`ApiClient` has neither method). -/
theorem C9_kick_never_updates_cache (s : Session) (ok : Bool)
    (body : KickWireBody) (newKey : SymKey) (repoId target : String)
    (auto : Bool) (success : Bool) (response : KickResponseVal)
    (hauth : s.is_authenticated = true) :
    (∀ out s2 ev, kick_member s ok body newKey repoId target auto =
      .ok (out, s2, ev) → s2 = s) ∧
    (kick_member_on_response s success response newKey auto).2.1 = s := by
  constructor
  · intro out s2 ev h
    have hk : kick_member s ok body newKey repoId target auto =
        .ok (kick_member_on_response s (ApiClient.kick_member_result ok body).1
          (ApiClient.kick_member_result ok body).2 newKey auto) := by
      simp [kick_member, hauth]
    rw [hk] at h
    have hs := kick_member_on_response_session s
      (ApiClient.kick_member_result ok body).1
      (ApiClient.kick_member_result ok body).2 newKey auto
    injection h with h2
    rw [h2] at hs
    simpa using hs
  · exact kick_member_on_response_session s success response newKey auto

/-- Witness for C9 at a concrete input: the dict branch with a remaining
member and the composed call both leave the cached team key untouched. -/
theorem C9_witness :
    (kick_member_on_response cachedSession true
      (.dict true [⟨"u2", ⟨9⟩⟩] none) ⟨5⟩ true).2.1 = cachedSession := by
  exact (C9_kick_never_updates_cache cachedSession true wireBodyRot ⟨5⟩
    "team1" "u3" true true (.dict true [⟨"u2", ⟨9⟩⟩] none) (by decide)).2

/-- C6 (failing-input evaluation included): the per-document loop of
`_reencrypt_all_documents` does skip documents with a missing or
un-unwrappable `encryptedDEK` while still processing the rest, and
everything it prepares is a DEK wrapper under the new key — but the
submission the claim asserts cannot happen: a non-empty rewrapped batch
reaches `client.py` line 884, where the missing `reencrypt_document_keys`
attribute raises, so no wrapper is ever submitted to the server (an
all-skipped batch returns normally without a submission). -/
theorem C6_reencrypt_skips_but_cannot_submit (s : Session) (env : DocListEnv)
    (repoId : String) (newKey oldKey : SymKey) (docs : List DocMeta)
    (hold : s.get_cached_team_key repoId = some oldKey)
    (hdocs : env.get_documents = .ok docs) :
    (∀ d ∈ docs, d.encryptedDEK = none → reencrypt_entry oldKey newKey d = none) ∧
    (∀ d ∈ docs, ∀ b, d.encryptedDEK = some b →
      (∀ dek, unwrap_key_with_aes b oldKey ≠ .ok dek) →
      reencrypt_entry oldKey newKey d = none) ∧
    (∀ d ∈ docs, ∀ p, reencrypt_entry oldKey newKey d = some p →
      p ∈ docs.filterMap (reencrypt_entry oldKey newKey)) ∧
    (∀ p ∈ docs.filterMap (reencrypt_entry oldKey newKey),
      ∃ dek, p.2 = Blob.wrapSym newKey dek) ∧
    ((docs.filterMap (reencrypt_entry oldKey newKey)).isEmpty = true →
      reencrypt_all_documents s env repoId newKey = .ok []) ∧
    ((docs.filterMap (reencrypt_entry oldKey newKey)).isEmpty = false →
      reencrypt_all_documents s env repoId newKey =
        .error (.attributeError reencrypt_attr_err_msg)) := by
  refine ⟨?_, ?_, ?_, ?_, ?_, ?_⟩
  · intro d _ hnone
    simp [reencrypt_entry, hnone]
  · intro d _ b hb hfail
    rcases hu : unwrap_key_with_aes b oldKey with e | dek
    · simp [reencrypt_entry, hb, hu]
    · exact absurd hu (hfail dek)
  · intro d hd p hp
    exact List.mem_filterMap.2 ⟨d, hd, hp⟩
  · intro p hp
    rcases List.mem_filterMap.1 hp with ⟨d, _, hf⟩
    unfold reencrypt_entry at hf
    rcases hdek : d.encryptedDEK with _ | b
    · rw [hdek] at hf
      exact absurd hf (by simp)
    · rw [hdek] at hf
      rcases hu : unwrap_key_with_aes b oldKey with e | dek
      · simp [hu] at hf
      · simp only [hu] at hf
        refine ⟨dek, ?_⟩
        have hps : p = (d.docId, wrap_key_with_aes dek newKey) := by
          simpa using hf.symm
        rw [hps]
        rfl
  · intro hemp
    simp [reencrypt_all_documents, hold, hdocs, hemp]
  · intro hemp
    simp [reencrypt_all_documents, hold, hdocs, hemp]

/-- Concrete documents: one without a DEK, one whose DEK is wrapped under a
foreign key, and — after them — one healthy document. -/
def mixedDocs : List DocMeta :=
  [⟨"doc0", "plain.txt", none⟩,
    ⟨"doc1", "foreign.txt", some (wrap_key_with_aes dekA ⟨99⟩)⟩,
    ⟨"doc2", "good.txt", some (wrap_key_with_aes dekA tkA)⟩]

/-- Document-listing environment over the mixed document list. -/
def mixedDocsEnv : DocListEnv := ⟨.ok mixedDocs⟩

/-- Witness for C6 at a concrete input: the unhealthy documents are skipped
and the healthy one after them is still rewrapped, yet the non-empty batch
dies at the missing transport method instead of being submitted. -/
theorem C6_witness :
    reencrypt_all_documents cachedSession mixedDocsEnv "team1" ⟨5⟩ =
      .error (.attributeError reencrypt_attr_err_msg) ∧
    reencrypt_entry tkA ⟨5⟩ ⟨"doc1", "foreign.txt",
      some (wrap_key_with_aes dekA ⟨99⟩)⟩ = none := by
  have h := C6_reencrypt_skips_but_cannot_submit cachedSession mixedDocsEnv
    "team1" ⟨5⟩ tkA mixedDocs (by decide) rfl
  refine ⟨?_, ?_⟩
  · exact h.2.2.2.2.2 rfl
  · exact h.2.1 ⟨"doc1", "foreign.txt", some (wrap_key_with_aes dekA ⟨99⟩)⟩
      (by simp [mixedDocs]) (wrap_key_with_aes dekA ⟨99⟩) rfl
      (by intro dek; simp [unwrap_key_with_aes, wrap_key_with_aes, tkA, decide])

/-- Upload environment for the arity evaluation: team key cached, transport
willing to answer Ok to the chunk POST. -/
def uploadArityEnv : UploadEnv := ⟨deniedTeamKeyEnv, dekA, true⟩

/-- C1 (failing-input evaluation): `upload_chunks_to_document`, run in an
authenticated session with the team key cached, on the chunk list
`[(0, "hello")]` and a transport that would answer Ok, returns a failure
outcome whose message is the `TypeError` text of the call
`self.api.upload_chunks(repo_id, file_name, encrypted_chunks, access_token,
encrypted_dek)` — five positional arguments against the three-parameter
`ApiClient.upload_chunks(self, doc_id, chunks, access_token)` — and the
request never reaches the transport (final flag `false`).  The claimed
submission of team id, file name, chunk list and wrapped DEK followed by a
success return therefore never happens. -/
theorem C1_upload_chunks_arity_mismatch :
    upload_chunks_to_document cachedSession uploadArityEnv "d.json" "team1"
        [⟨0, "hello"⟩] =
      .ok ((false,
        "청크 업로드 오류: upload_chunks() takes 4 positional arguments but 6 were given"),
        cachedSession, false) := by
  rfl

/-- The delta row of an envelope-encrypted chunk: its payload is encrypted
under the document DEK, exactly as `upload_chunks_to_document` produces it. -/
def envelopedRow : SyncChunkRow :=
  ⟨"doc1", 0, some (encrypt_data "hello" dekA), 5, false⟩

/-- Sync environment delivering the single enveloped live row. -/
def envelopedSyncEnv : SyncEnv := ⟨deniedTeamKeyEnv, .ok [envelopedRow]⟩

/-- C2 (failing-input evaluation): on a live delta row whose payload was
encrypted under the document DEK (the only kind the envelope upload path
produces), both sync methods decrypt the blob directly with the team key
(`client.py` lines 737 and 805) and therefore fail with an authentication
error, while the decryption path the spec prescribes — unwrap `encryptedDEK`
with the team key, then decrypt the blob with the DEK — recovers the
plaintext from the very same row. -/
theorem C2_sync_decrypts_with_team_key_not_dek :
    sync_team_chunks cachedSession envelopedSyncEnv "team1" =
      .ok ((none, "팀 청크 동기화 오류: AuthenticationFailure"), cachedSession) ∧
    sync_document_chunks cachedSession envelopedSyncEnv "team1" =
      .ok ((none, "청크 동기화 오류: AuthenticationFailure"), cachedSession) ∧
    spec_delta_plaintext tkA (wrap_key_with_aes dekA tkA) envelopedRow =
      .ok "hello" := by
  exact ⟨rfl, rfl, rfl⟩

/-- Whether an embedded operation returned an outcome rather than raising. -/
def except_ok {α β : Type} (x : Except α β) : Bool :=
  match x with
  | .ok _ => true
  | .error _ => false

/-- An operation that returned an outcome has an `ok` value. -/
theorem exists_ok_of_except_ok {α β : Type} {x : Except α β}
    (h : except_ok x = true) : ∃ v, x = .ok v := by
  cases x with
  | error e => simp [except_ok] at h
  | ok v => exact ⟨v, rfl⟩

/-- In an authenticated session `get_documents` always returns an outcome
pair, whatever the transport answers. -/
theorem get_documents_total (s : Session) (env : DocListEnv)
    (h : s.is_authenticated = true) : ∃ v, get_documents s env = .ok v := by
  apply exists_ok_of_except_ok
  rcases hd : env.get_documents with m | docs <;>
    simp [get_documents, except_ok, h, hd]

/-- In an authenticated session `kick_member` always returns an outcome
triple: the composed adapter hands back a pair and every branch of the
response handling returns one. -/
theorem kick_member_total (s : Session) (ok : Bool) (body : KickWireBody)
    (newKey : SymKey) (r t : String) (auto : Bool)
    (h : s.is_authenticated = true) :
    ∃ v, kick_member s ok body newKey r t auto = .ok v := by
  apply exists_ok_of_except_ok
  simp [kick_member, except_ok, h]

/-- In an authenticated session `upload_chunks_to_document` always returns
an outcome triple. -/
theorem upload_chunks_total (s : Session) (env : UploadEnv) (f r : String)
    (cs : List PlainChunk) (h : s.is_authenticated = true) :
    ∃ v, upload_chunks_to_document s env f r cs = .ok v := by
  apply exists_ok_of_except_ok
  rcases he : ensure_team_key s env.team r with e | ⟨k, s1, b⟩
  · simp [upload_chunks_to_document, except_ok, h, he]
  · rcases hc : ApiClient.upload_chunks_call env.post_ok
        [.str r, .str f, .chunks (cs.map
          (fun c => EncChunk.mk c.chunkIndex (encrypt_data c.data env.dek))),
          .str (s1.accessToken.getD ""), .blob (wrap_key_with_aes env.dek k)] with
      e2 | ⟨res, sent⟩ <;>
      simp [upload_chunks_to_document, except_ok, h, he, hc]

/-- In an authenticated session `sync_team_chunks` always returns an outcome
pair. -/
theorem sync_team_chunks_total (s : Session) (env : SyncEnv) (r : String)
    (h : s.is_authenticated = true) :
    ∃ v, sync_team_chunks s env r = .ok v := by
  apply exists_ok_of_except_ok
  rcases hs : env.sync with m | rows
  · simp [sync_team_chunks, except_ok, h, hs]
  · rcases rows with _ | ⟨row, rows⟩
    · simp [sync_team_chunks, except_ok, h, hs]
    · rcases he : ensure_team_key s env.team r with e | ⟨k, s1, b⟩
      · simp [sync_team_chunks, except_ok, h, hs, he]
      · rcases hd : decrypt_sync_rows k (row :: rows) with e2 | pairs <;>
          simp [sync_team_chunks, except_ok, h, hs, he, hd]

/-- In an authenticated session `sync_document_chunks` always returns an
outcome pair. -/
theorem sync_document_chunks_total (s : Session) (env : SyncEnv) (r : String)
    (h : s.is_authenticated = true) :
    ∃ v, sync_document_chunks s env r = .ok v := by
  apply exists_ok_of_except_ok
  rcases hs : env.sync with m | rows
  · simp [sync_document_chunks, except_ok, h, hs]
  · rcases rows with _ | ⟨row, rows⟩
    · simp [sync_document_chunks, except_ok, h, hs]
    · rcases he : ensure_team_key s env.team r with e | ⟨k, s1, b⟩
      · simp [sync_document_chunks, except_ok, h, hs, he]
      · rcases hd : decrypt_sync_rows k (row :: rows) with e2 | pairs <;>
          simp [sync_document_chunks, except_ok, h, hs, he, hd]

/-- Document-list environment answering with an empty listing. -/
def emptyDocEnv : DocListEnv := ⟨.ok []⟩

/-- A kick body carrying no rotation requirement, used for unauthenticated
evaluations. -/
def plainWireBody : KickWireBody := ⟨false, [], none⟩

/-- C3 counterexample: public operations invoked on the fresh,
unauthenticated session do not return an outcome pair — the
`_ensure_authenticated` check sits outside every `try` block and its
`RuntimeError` propagates to the caller, here for `get_documents` and
`kick_member` at concrete inputs. -/
theorem C3_counterexample_unauthenticated_raises :
    get_documents Session.empty emptyDocEnv =
      .error (.runtimeError login_required_msg) ∧
    kick_member Session.empty true plainWireBody ⟨5⟩ "team1" "u2" true =
      .error (.runtimeError login_required_msg) := by
  exact ⟨rfl, rfl⟩

/-- C3 amended: invoked in an authenticated session, the public operations
return an explicit `(success, value-or-failure)` outcome for every transport
response and never raise; invoked unauthenticated, the operations that
require a session signal the failure by raising `RuntimeError("로그인이
필요합니다.")` instead of returning an outcome. -/
theorem C3_amended_outcomes (s : Session) (denv : DocListEnv) (kok : Bool)
    (kbody : KickWireBody) (nk : SymKey) (uenv : UploadEnv) (senv : SyncEnv)
    (r t f : String) (cs : List PlainChunk) (auto : Bool) :
    (s.is_authenticated = true →
      (∃ v, get_documents s denv = .ok v) ∧
      (∃ v, kick_member s kok kbody nk r t auto = .ok v) ∧
      (∃ v, upload_chunks_to_document s uenv f r cs = .ok v) ∧
      (∃ v, sync_team_chunks s senv r = .ok v) ∧
      (∃ v, sync_document_chunks s senv r = .ok v)) ∧
    (s.is_authenticated = false →
      get_documents s denv = .error (.runtimeError login_required_msg) ∧
      kick_member s kok kbody nk r t auto =
        .error (.runtimeError login_required_msg) ∧
      upload_chunks_to_document s uenv f r cs =
        .error (.runtimeError login_required_msg) ∧
      sync_team_chunks s senv r = .error (.runtimeError login_required_msg) ∧
      sync_document_chunks s senv r =
        .error (.runtimeError login_required_msg)) := by
  constructor
  · intro h
    exact ⟨get_documents_total s denv h,
      kick_member_total s kok kbody nk r t auto h,
      upload_chunks_total s uenv f r cs h, sync_team_chunks_total s senv r h,
      sync_document_chunks_total s senv r h⟩
  · intro h
    refine ⟨?_, ?_, ?_, ?_, ?_⟩ <;>
      simp [get_documents, kick_member, upload_chunks_to_document,
        sync_team_chunks, sync_document_chunks, h]

/-- Witness for the amended C3 at concrete inputs: the authenticated session
gets outcomes, the fresh session gets the raised `RuntimeError`. -/
theorem C3_amended_witness :
    (∃ v, get_documents authSession emptyDocEnv = .ok v) ∧
    get_documents Session.empty emptyDocEnv =
      .error (.runtimeError login_required_msg) := by
  exact ⟨((C3_amended_outcomes authSession emptyDocEnv true plainWireBody ⟨5⟩
      uploadArityEnv envelopedSyncEnv "team1" "u2" "d.json" [] true).1 rfl).1,
    ((C3_amended_outcomes Session.empty emptyDocEnv true plainWireBody ⟨5⟩
      uploadArityEnv envelopedSyncEnv "team1" "u2" "d.json" [] true).2 rfl).1⟩

/-- Unfolding of the version fold over a cons cell. -/
theorem chunk_list_max_cons (v : Int) (c : ResultChunk) (cs : List ResultChunk) :
    chunk_list_max v (c :: cs) =
      chunk_list_max (if c.version > v then c.version else v) cs := rfl

/-- Unfolding of the batch version fold over a cons cell. -/
theorem batch_max_cons (v : Int) (p : String × List ResultChunk)
    (batch : List (String × List ResultChunk)) :
    batch_max v (p :: batch) = batch_max (chunk_list_max v p.2) batch := rfl

/-- The version fold never goes below its start value. -/
theorem le_chunk_list_max : ∀ (cs : List ResultChunk) (v : Int),
    v ≤ chunk_list_max v cs := by
  intro cs
  induction cs with
  | nil => intro v; simp [chunk_list_max]
  | cons c cs ih =>
    intro v
    rw [chunk_list_max_cons]
    refine le_trans ?_ (ih _)
    split <;> omega

/-- The batch version fold never goes below its start value. -/
theorem le_batch_max : ∀ (batch : List (String × List ResultChunk)) (v : Int),
    v ≤ batch_max v batch := by
  intro batch
  induction batch with
  | nil => intro v; simp [batch_max]
  | cons p rest ih =>
    intro v
    rw [batch_max_cons]
    exact le_trans (le_chunk_list_max p.2 v) (ih _)

/-- When the inner chunk loop completes, the value it returns is the fold of
the versions it saw over its start value. -/
theorem process_doc_chunks_ok_eq (env : WorkerEnv) (docId : String) :
    ∀ (cs : List ResultChunk) (v w : Int),
      process_doc_chunks env docId cs v = .ok w → w = chunk_list_max v cs := by
  intro cs
  induction cs with
  | nil =>
    intro v w h
    simp only [process_doc_chunks] at h
    cases h
    rfl
  | cons c cs ih =>
    intro v w h
    simp only [process_doc_chunks] at h
    rw [chunk_list_max_cons]
    by_cases hd : c.isDeleted = true
    · rw [if_pos hd] at h
      exact ih _ _ h
    · rw [if_neg hd] at h
      rcases ha : env.apply_chunk docId c with e | u
      · rw [ha] at h
        exact absurd h (by simp)
      · rw [ha] at h
        exact ih _ _ h

/-- When the whole batch loop completes, the value it returns is the maximum
version seen across the whole batch. -/
theorem process_batch_ok_eq (env : WorkerEnv) :
    ∀ (batch : List (String × List ResultChunk)) (v w : Int),
      process_batch env batch v = .ok w → w = batch_max v batch := by
  intro batch
  induction batch with
  | nil =>
    intro v w h
    simp only [process_batch] at h
    cases h
    rfl
  | cons p rest ih =>
    intro v w h
    rcases p with ⟨docId, chunks⟩
    simp only [process_batch] at h
    rcases hpc : process_doc_chunks env docId chunks v with e | v2
    · rw [hpc] at h
      exact absurd h (by simp)
    · rw [hpc] at h
      rw [batch_max_cons, ← process_doc_chunks_ok_eq env docId chunks v v2 hpc]
      exact ih _ _ h

/-- When the inner chunk loop completes, every live chunk it covered was
applied successfully (tombstones were skipped). -/
theorem process_doc_chunks_ok_applies (env : WorkerEnv) (docId : String) :
    ∀ (cs : List ResultChunk) (v w : Int),
      process_doc_chunks env docId cs v = .ok w →
      ∀ c ∈ cs, c.isDeleted = false → env.apply_chunk docId c = .ok () := by
  intro cs
  induction cs with
  | nil =>
    intro v w h c hc
    simp at hc
  | cons c0 cs ih =>
    intro v w h c hc hdel
    simp only [process_doc_chunks] at h
    rcases List.mem_cons.1 hc with rfl | hmem
    · rw [if_neg (by simp [hdel])] at h
      rcases ha : env.apply_chunk docId c with e | u
      · rw [ha] at h
        exact absurd h (by simp)
      · rfl
    · by_cases hd : c0.isDeleted = true
      · rw [if_pos hd] at h
        exact ih _ _ h c hmem hdel
      · rw [if_neg hd] at h
        rcases ha : env.apply_chunk docId c0 with e | u
        · rw [ha] at h
          exact absurd h (by simp)
        · rw [ha] at h
          exact ih _ _ h c hmem hdel

/-- When the whole batch loop completes, every live entry of the batch was
applied successfully. -/
theorem process_batch_ok_applies (env : WorkerEnv) :
    ∀ (batch : List (String × List ResultChunk)) (v w : Int),
      process_batch env batch v = .ok w →
      ∀ p ∈ batch, ∀ c ∈ p.2, c.isDeleted = false →
        env.apply_chunk p.1 c = .ok () := by
  intro batch
  induction batch with
  | nil =>
    intro v w h p hp
    simp at hp
  | cons q rest ih =>
    intro v w h p hp c hc hdel
    rcases q with ⟨docId, chunks⟩
    simp only [process_batch] at h
    rcases hpc : process_doc_chunks env docId chunks v with e | v2
    · rw [hpc] at h
      exact absurd h (by simp)
    · rw [hpc] at h
      rcases List.mem_cons.1 hp with rfl | hmem
      · exact process_doc_chunks_ok_applies env docId chunks v v2 hpc c hc hdel
      · exact ih _ _ h p hmem c hc hdel

/-- C4: the worker persists the watermark only after the whole delta batch
went through: if the batch processing fails partway, the persisted watermark
is left unchanged and no save happens; if it completes, every live entry of
the batch was applied (tombstones skipped) and the watermark is advanced
exactly to the maximum version seen across the whole batch. -/
theorem C4_worker_watermark_after_whole_batch (env : WorkerEnv)
    (batch : List (String × List ResultChunk)) (last : Int) :
    ((∃ e, process_batch env batch last = .error e) →
      worker_iteration env batch last = (last, false)) ∧
    (∀ m, process_batch env batch last = .ok m →
      m = batch_max last batch ∧
      last ≤ batch_max last batch ∧
      worker_iteration env batch last =
        (if batch_max last batch > last then (batch_max last batch, true)
          else (last, false)) ∧
      (∀ p ∈ batch, ∀ c ∈ p.2, c.isDeleted = false →
        env.apply_chunk p.1 c = .ok ())) := by
  constructor
  · rintro ⟨e, he⟩
    simp [worker_iteration, he]
  · intro m hm
    have h1 := process_batch_ok_eq env batch last m hm
    refine ⟨h1, le_batch_max batch last, ?_,
      process_batch_ok_applies env batch last m hm⟩
    simp only [worker_iteration, hm, h1]

/-- A vector store accepting every chunk. -/
def okWorkerEnv : WorkerEnv := ⟨fun _ _ => .ok ()⟩

/-- A vector store failing on every chunk. -/
def failWorkerEnv : WorkerEnv := ⟨fun _ _ => .error (.runtimeError "store down")⟩

/-- A concrete delta batch: one live chunk at version 5 and a tombstone at
version 3 for the same document. -/
def batchA : List (String × List ResultChunk) :=
  [("doc1", [⟨0, 5, false, some "hello"⟩, ⟨1, 3, true, none⟩])]

/-- Witness for C4 at concrete inputs: a fully applied batch advances the
persisted watermark to 5; a batch whose application fails leaves it at 0
with no save. -/
theorem C4_witness :
    worker_iteration okWorkerEnv batchA 0 = (5, true) ∧
    worker_iteration failWorkerEnv batchA 0 = (0, false) := by
  constructor
  · have h :=
      ((C4_worker_watermark_after_whole_batch okWorkerEnv batchA 0).2 5 rfl).2.2.1
    rw [h]
    rfl
  · exact (C4_worker_watermark_after_whole_batch failWorkerEnv batchA 0).1
      ⟨.runtimeError "store down", rfl⟩

end SeRVe
